import Mathlib

/-!
Shallow embedding of the terminal clipboard / find-widget coordination logic of
src/vs/workbench/contrib/terminalContrib/clipboard/browser/terminal.clipboard.contribution.ts
and src/vs/workbench/contrib/terminalContrib/find/browser/terminalFindWidget.ts.

State that lives in mutable fields of the TypeScript classes is passed
explicitly; methods that can throw return a pair of the post-call state and an
`Except` result (a throw aborts the method before any later assignment, so the
post-call state on the error branch is whatever had been assigned up to the
throw). External collaborators (clipboard service, paste guard, xterm surface,
configuration service) are parameters: their observable behaviour at the call
is an argument, and the side effects the code requests from them are recorded
in result records.
-/

namespace TerminalClipboardModel

/-- Coordinate of a terminal buffer position, as in the xterm IBufferRange
shape used by getSelectionPosition(). -/
structure BufferPosition where
  x : Nat
  y : Nat
deriving DecidableEq, Repr

/-- Buffer range of a selection: start and end positions. The source compares
two such values via JSON.stringify; on these fixed record shapes stringify
equality coincides with structural equality, so the embedding compares the
records directly. -/
structure BufferRange where
  start : BufferPosition
  stop : BufferPosition
deriving DecidableEq, Repr

/-- The single thrown error of the embedded code: the source throws
new Error(...) with the message about setting a copy on selection override
multiple times, from overrideCopyOnSelection when the lock is already held. -/
inductive JsError where
  | doubleAcquire
deriving DecidableEq, Repr

/-- Revocation handle returned by overrideCopyOnSelection. The source returns
toDisposable(() => \x7b this._overrideCopySelection = undefined; \x7d); the
`disposed` flag records whether the wrapped closure has already run. -/
structure RevocationHandle where
  disposed : Bool
deriving DecidableEq, Repr

/-- TerminalClipboardContribution.overrideCopyOnSelection. The lock state is
the field _overrideCopySelection : boolean | undefined, embedded as
Option Bool (none = undefined = unset). If the lock is non-unset the method
throws before any assignment, so the post-call state is the input state;
otherwise it stores `value` and returns a fresh revocation handle. -/
def overrideCopyOnSelection (value : Bool) (s : Option Bool) :
    Option Bool × Except JsError RevocationHandle :=
  match s with
  | some _ => (s, Except.error JsError.doubleAcquire)
  | none => (some value, Except.ok { disposed := false })

/-- Body of the closure wrapped by toDisposable in overrideCopyOnSelection:
it unconditionally sets _overrideCopySelection = undefined. -/
def revokeOverride (_s : Option Bool) : Option Bool := none

/-- Modelled from the spec: toDisposable comes from base/common/lifecycle,
which is not under src/; per the spec the revocation handle resets the lock
exactly once, idempotently, regardless of how many times it is invoked, so the
wrapped closure runs only on the first dispose() call. -/
def disposeHandle (h : RevocationHandle) (s : Option Bool) :
    RevocationHandle × Option Bool :=
  if h.disposed then (h, s)
  else ({ disposed := true }, revokeOverride s)

/-- Iterated invocation of the revocation handle: dispose() called n times. -/
def disposeHandleTimes : Nat → RevocationHandle → Option Bool →
    RevocationHandle × Option Bool
  | 0, h, s => (h, s)
  | n + 1, h, s =>
    let r := disposeHandle h s
    disposeHandleTimes n r.1 r.2

/-- Last-copied selection snapshot: the fields _previousSelection and
_previousSelectionPosition of TerminalClipboardContribution (both start
undefined). -/
structure SnapshotState where
  previousSelection : Option String
  previousSelectionPosition : Option BufferRange
deriving DecidableEq, Repr

/-- The onDidChangeSelection handler registered in xtermReady. Inputs read
from collaborators at event time: copyOnSelectionEnabled is the configuration
value for terminal.integrated.copyOnSelection; hasSelection is
_ctx.instance.hasSelection(); selection is xterm.raw.getSelection() (a plain
string, empty when nothing is selected); selectionPosition is
xterm.raw.getSelectionPosition() (undefined when nothing is selected).
Returns the new snapshot state and whether copySelection() was invoked.
Per the source the two snapshot fields are assigned immediately before the
copySelection() call and nowhere else in the handler. The strict-equality
check getSelection() === _previousSelection is true exactly when the previous
selection is defined and equal to the current string. -/
def onDidChangeSelection (copyOnSelectionEnabled : Bool) (ov : Option Bool)
    (hasSelection : Bool) (selection : String)
    (selectionPosition : Option BufferRange) (snap : SnapshotState) :
    SnapshotState × Bool :=
  if copyOnSelectionEnabled then
    if ov = some false then
      (snap, false)
    else if snap.previousSelection = some selection
        ∧ snap.previousSelectionPosition = selectionPosition then
      (snap, false)
    else if hasSelection then
      ({ previousSelection := some selection
         previousSelectionPosition := selectionPosition }, true)
    else
      (snap, false)
  else
    (snap, false)

/-- Result of the paste guard shouldPasteTerminalText (external collaborator,
awaited in _paste): true, false, or an object carrying modifiedText. -/
inductive ShouldPaste where
  | bool (b : Bool)
  | modified (modifiedText : String)
deriving DecidableEq, Repr

/-- JavaScript falsiness of the guard result: only the value false is falsy
(an object is always truthy, whatever its modifiedText). -/
def shouldPasteIsFalsy : ShouldPaste → Bool
  | ShouldPaste.bool false => true
  | _ => false

/-- Side effects requested from collaborators during one _paste call:
whether _ctx.instance.focus() ran, the payloads fired on _onWillPaste, the
strings written via xterm.raw.paste, and the payloads fired on _onDidPaste,
each in order. -/
structure PasteEffects where
  focused : Bool
  willPaste : List String
  written : List String
  didPaste : List String
deriving DecidableEq, Repr

/-- Effects of a _paste call that returned without doing anything. -/
def noPasteEffects : PasteEffects :=
  { focused := false, willPaste := [], written := [], didPaste := [] }

/-- TerminalClipboardContribution._paste. Returns early with no effects when
_xterm is not attached or when the guard result is falsy; otherwise the text
actually pasted is the guard modifiedText when the guard returned an object,
else the clipboard value, and that same currentText is fired on will-paste,
written to the terminal, and fired on did-paste, after focusing the
instance. -/
def pasteRaw (xtermAttached : Bool) (value : String)
    (shouldPasteText : ShouldPaste) : PasteEffects :=
  if ¬xtermAttached then
    noPasteEffects
  else if shouldPasteIsFalsy shouldPasteText then
    noPasteEffects
  else
    let currentText :=
      match shouldPasteText with
      | ShouldPaste.modified t => t
      | ShouldPaste.bool _ => value
    { focused := true
      willPaste := [currentText]
      written := [currentText]
      didPaste := [currentText] }

/-- Clipboard channels of IClipboardService.readText. -/
inductive ClipboardChannel where
  | default
  | selection
deriving DecidableEq, Repr

/-- Observable outcome of a successful paste() or pasteSelection() call. -/
structure PasteCallResult where
  channelRead : ClipboardChannel
  lockDuringPaste : Option Bool
  effects : PasteEffects
deriving DecidableEq, Repr

/-- TerminalClipboardContribution.paste: reads the default clipboard channel
and runs _paste on the text read. readText is the clipboard service,
shouldPasteText the awaited guard result. -/
def paste (readText : ClipboardChannel → String) (xtermAttached : Bool)
    (shouldPasteText : ShouldPaste) : PasteCallResult :=
  { channelRead := ClipboardChannel.default
    lockDuringPaste := none
    effects := pasteRaw xtermAttached (readText ClipboardChannel.default)
      shouldPasteText }

/-- TerminalClipboardContribution.pasteSelection: first calls
overrideCopyOnSelection(false) discarding the returned handle (a throw there
aborts the call before the clipboard is read), then reads the selection
clipboard channel and runs _paste. Nothing in the call releases the lock, so
the post-call lock state on success is some false, and lockDuringPaste records
the one lock value in force across the whole _paste call. -/
def pasteSelection (ov : Option Bool) (readText : ClipboardChannel → String)
    (xtermAttached : Bool) (shouldPasteText : ShouldPaste) :
    Option Bool × Except JsError PasteCallResult :=
  let acq := overrideCopyOnSelection false ov
  match acq.2 with
  | Except.error e => (acq.1, Except.error e)
  | Except.ok _handle =>
    (acq.1, Except.ok
      { channelRead := ClipboardChannel.selection
        lockDuringPaste := acq.1
        effects := pasteRaw xtermAttached (readText ClipboardChannel.selection)
          shouldPasteText })

/-- Combined state crossing the two components: the shared override lock
(_overrideCopySelection of TerminalClipboardContribution), the handle held by
the find widget (_overrideCopyOnSelectionDisposable of TerminalFindWidget),
and the find-widget focus context key (_findWidgetFocused). -/
structure SystemState where
  overrideCopySelection : Option Bool
  widgetHandle : Option RevocationHandle
  findWidgetFocused : Bool
deriving DecidableEq, Repr

/-- Initial state: lock unset, no handle held, widget not focused. -/
def initialSystemState : SystemState :=
  { overrideCopySelection := none, widgetHandle := none
    findWidgetFocused := false }

/-- Invocation of _overrideCopyOnSelectionDisposable?.dispose() by the find
widget: no-op when no handle is held, otherwise disposes the held handle,
which (on its first disposal) unconditionally resets the shared lock. -/
def disposeWidgetHandle (s : SystemState) : SystemState :=
  match s.widgetHandle with
  | none => s
  | some h =>
    let r := disposeHandle h s.overrideCopySelection
    { s with overrideCopySelection := r.2, widgetHandle := some r.1 }

/-- TerminalFindWidget._onFocusTrackerFocus. contributionPresent is the
truthiness of TerminalClipboardContribution.get(this._instance)?.
overrideCopyOnSelection, i.e. whether the clipboard contribution exists on
the instance. When present the widget acquires the override lock with false
and stores the handle; a throw from the acquisition propagates, skipping the
later _findWidgetFocused.set(true). -/
def onFocusTrackerFocus (contributionPresent : Bool) (s : SystemState) :
    SystemState × Except JsError Unit :=
  if contributionPresent then
    let acq := overrideCopyOnSelection false s.overrideCopySelection
    match acq.2 with
    | Except.error e =>
      ({ s with overrideCopySelection := acq.1 }, Except.error e)
    | Except.ok h =>
      ({ s with
          overrideCopySelection := acq.1
          widgetHandle := some h
          findWidgetFocused := true },
       Except.ok ())
  else
    ({ s with findWidgetFocused := true }, Except.ok ())

/-- Effects of _onFocusTrackerBlur on collaborators. -/
structure BlurEffects where
  clearedActiveSearchDecoration : Bool
deriving DecidableEq, Repr

/-- TerminalFindWidget._onFocusTrackerBlur: clears the active search
decoration when an xterm is attached and resets the focus context key. The
line disposing _overrideCopyOnSelectionDisposable is commented out in the
source, so the override lock and the held handle are untouched. -/
def onFocusTrackerBlur (xtermAttached : Bool) (s : SystemState) :
    SystemState × BlurEffects :=
  ({ s with findWidgetFocused := false },
   { clearedActiveSearchDecoration := xtermAttached })

/-- Observable outcome of TerminalFindWidget._onInputChanged. -/
structure InputChangedResult where
  state : SystemState
  issuedIncrementalSearch : Bool
  returnValue : Bool
deriving DecidableEq, Repr

/-- TerminalFindWidget._onInputChanged: when this._instance.xterm is attached
the widget first runs _overrideCopyOnSelectionDisposable?.dispose() and then
issues _findPreviousWithEvent with incremental: true; when no xterm is
attached nothing happens. The method returns false in either case. -/
def onInputChanged (xtermAttached : Bool) (s : SystemState) :
    InputChangedResult :=
  if xtermAttached then
    { state := disposeWidgetHandle s
      issuedIncrementalSearch := true
      returnValue := false }
  else
    { state := s, issuedIncrementalSearch := false, returnValue := false }

/-- Sample clipboard text used by concrete witnesses. -/
def sampleText : String := "hello"

/-- Second sample text, distinct from sampleText, used by witnesses. -/
def sampleModified : String := "world"

/-- Sample clipboard reader used by concrete counterexamples and witnesses:
every channel holds sampleText. -/
def samplePasteRead : ClipboardChannel → String := fun _ => sampleText

/-- C1: a call to overrideCopyOnSelection while the override lock is already
held (non-unset) fails by throwing the double-acquire error instead of
silently overwriting the held value, and this double-acquire is the only
condition in the embedded system that raises a hard error: acquisition from
the unset state succeeds, and the only other operations able to propagate an
error (pasteSelection and the focus-tracker handler) error only when the lock
was already held. -/
theorem overrideCopyOnSelection_throws_when_held (v : Bool) (s : Option Bool)
    (h : s ≠ none) :
    (overrideCopyOnSelection v s).2 = Except.error JsError.doubleAcquire
    ∧ (overrideCopyOnSelection v s).1 = s
    ∧ (∀ w : Bool, (overrideCopyOnSelection w none).2
        = Except.ok { disposed := false })
    ∧ (∀ (ov : Option Bool) (rt : ClipboardChannel → String) (xa : Bool)
        (g : ShouldPaste) (e : JsError),
        (pasteSelection ov rt xa g).2 = Except.error e → ov ≠ none)
    ∧ (∀ (cp : Bool) (st : SystemState) (e : JsError),
        (onFocusTrackerFocus cp st).2 = Except.error e →
          st.overrideCopySelection ≠ none) := by
  refine ⟨?_, ?_, fun w => rfl, ?_, ?_⟩
  · cases s with
    | none => exact absurd rfl h
    | some b => rfl
  · cases s with
    | none => exact absurd rfl h
    | some b => rfl
  · intro ov rt xa g e hpe hnone
    subst hnone
    simp [pasteSelection, overrideCopyOnSelection] at hpe
  · intro cp st e hfe hnone
    cases cp
    · simp [onFocusTrackerFocus] at hfe
    · simp [onFocusTrackerFocus, overrideCopyOnSelection, hnone] at hfe

/-- Witness for C1 at a concrete held lock state. -/
theorem overrideCopyOnSelection_throws_when_held_witness :
    (some false ≠ (none : Option Bool))
    ∧ (overrideCopyOnSelection true (some false)).2
        = Except.error JsError.doubleAcquire :=
  ⟨by decide,
   (overrideCopyOnSelection_throws_when_held true (some false) (by decide)).1⟩

/-- Auxiliary: once the revocation handle has run, further dispose() calls
change nothing. -/
theorem disposeHandleTimes_disposed (n : Nat) (s : Option Bool) :
    disposeHandleTimes n { disposed := true } s = ({ disposed := true }, s) := by
  induction n with
  | zero => rfl
  | succ k ih => simpa [disposeHandleTimes, disposeHandle] using ih

/-- C2: a successful overrideCopyOnSelection call stores the value and
returns a fresh revocation handle, and invoking that handle any positive
number of times leaves the lock unset: the first dispose() resets the lock to
unset and later calls are no-ops, so release is idempotent and always returns
the lock to unset. -/
theorem overrideCopyOnSelection_release_idempotent (v : Bool) (n : Nat)
    (hn : 1 ≤ n) :
    (overrideCopyOnSelection v none).1 = some v
    ∧ (overrideCopyOnSelection v none).2 = Except.ok { disposed := false }
    ∧ (disposeHandleTimes n { disposed := false } (some v)).2 = none := by
  refine ⟨rfl, rfl, ?_⟩
  obtain ⟨k, rfl⟩ := Nat.exists_eq_succ_of_ne_zero (Nat.one_le_iff_ne_zero.mp hn)
  simp [disposeHandleTimes, disposeHandle, revokeOverride,
    disposeHandleTimes_disposed]

/-- Witness for C2: the handle from acquiring with true, invoked twice,
leaves the lock unset. -/
theorem overrideCopyOnSelection_release_idempotent_witness :
    (1 ≤ 2)
    ∧ (disposeHandleTimes 2 { disposed := false } (some true)).2 = none :=
  ⟨by decide, (overrideCopyOnSelection_release_idempotent true 2 (by decide)).2.2⟩

/-- C3: while the override lock holds false, a selection-changed event never
triggers an automatic copy and never touches the snapshot, for every
configuration value, selection presence, selection text, selection position
and prior snapshot — in particular even when copy-on-selection is enabled and
the selection differs from the last-copied snapshot. -/
theorem onDidChangeSelection_lock_false_never_copies (cfg hasSel : Bool)
    (sel : String) (pos : Option BufferRange) (snap : SnapshotState) :
    onDidChangeSelection cfg (some false) hasSel sel pos snap = (snap, false) := by
  cases cfg <;> simp [onDidChangeSelection]

/-- C4: with copy-on-selection enabled and the lock not holding false: when
the selection text and position both exactly equal the last-copied snapshot
the handler performs no copy and leaves the snapshot unchanged; otherwise,
when a selection exists, the snapshot is set to the current selection and
exactly one copy is performed; the snapshot changes only when a copy is
performed; and a second consecutive delivery of the same selection event
never copies again. -/
theorem onDidChangeSelection_dedup_and_snapshot (ov : Option Bool)
    (hov : ov ≠ some false) (hasSel : Bool) (sel : String)
    (pos : Option BufferRange) (snap : SnapshotState) :
    (snap.previousSelection = some sel ∧ snap.previousSelectionPosition = pos →
      onDidChangeSelection true ov hasSel sel pos snap = (snap, false))
    ∧ (¬(snap.previousSelection = some sel
          ∧ snap.previousSelectionPosition = pos) →
      hasSel = true →
      onDidChangeSelection true ov hasSel sel pos snap =
        ({ previousSelection := some sel
           previousSelectionPosition := pos }, true))
    ∧ ((onDidChangeSelection true ov hasSel sel pos snap).2 = false →
      (onDidChangeSelection true ov hasSel sel pos snap).1 = snap)
    ∧ (onDidChangeSelection true ov hasSel sel pos
        (onDidChangeSelection true ov hasSel sel pos snap).1).2 = false := by
  refine ⟨?_, ?_, ?_, ?_⟩
  · rintro ⟨h1, h2⟩
    simp [onDidChangeSelection, hov, h1, h2]
  · intro hm hsel
    simp [onDidChangeSelection, hov, hm, hsel]
  · intro hfalse
    by_cases hm : snap.previousSelection = some sel
        ∧ snap.previousSelectionPosition = pos
    · simp [onDidChangeSelection, hov, hm.1, hm.2]
    · cases hhs : hasSel
      · simp [onDidChangeSelection, hov, hm]
      · exfalso
        simp [onDidChangeSelection, hov, hm, hhs] at hfalse
  · by_cases hm : snap.previousSelection = some sel
        ∧ snap.previousSelectionPosition = pos
    · simp [onDidChangeSelection, hov, hm.1, hm.2]
    · cases hhs : hasSel
      · simp [onDidChangeSelection, hov, hm, hhs]
      · simp [onDidChangeSelection, hov, hm, hhs]

/-- Witness for C4: with the lock unset, a selection-changed event whose text
and position equal the snapshot performs no copy and keeps the snapshot. -/
theorem onDidChangeSelection_dedup_and_snapshot_witness :
    ((none : Option Bool) ≠ some false)
    ∧ onDidChangeSelection true none true sampleText none
        { previousSelection := some sampleText
          previousSelectionPosition := none }
      = ({ previousSelection := some sampleText
           previousSelectionPosition := none }, false) :=
  ⟨by decide,
   (onDidChangeSelection_dedup_and_snapshot none (by decide) true sampleText
      none { previousSelection := some sampleText
             previousSelectionPosition := none }).1 ⟨rfl, rfl⟩⟩

/-- C5: a paste() call whose guard rejects (returns false) is a full no-op:
the terminal is not focused, no will-paste event fires, nothing is written to
the terminal, and no did-paste event fires, for every clipboard content and
whether or not an xterm is attached. -/
theorem paste_guard_reject_noop (rt : ClipboardChannel → String) (xa : Bool) :
    (paste rt xa (ShouldPaste.bool false)).effects = noPasteEffects
    ∧ (paste rt xa (ShouldPaste.bool false)).effects.focused = false
    ∧ (paste rt xa (ShouldPaste.bool false)).effects.willPaste = []
    ∧ (paste rt xa (ShouldPaste.bool false)).effects.written = []
    ∧ (paste rt xa (ShouldPaste.bool false)).effects.didPaste = [] := by
  cases xa <;>
    simp [paste, pasteRaw, shouldPasteIsFalsy, noPasteEffects]

/-- C6: a paste() call whose guard returns an object with modifiedText writes
exactly modifiedText to the terminal and carries it on both the will-paste
and did-paste events; whenever the original clipboard content differs from
modifiedText, the original content is not what gets written. -/
theorem paste_guard_modified_writes_modified (rt : ClipboardChannel → String)
    (t : String) :
    (paste rt true (ShouldPaste.modified t)).effects
      = { focused := true, willPaste := [t], written := [t], didPaste := [t] }
    ∧ (rt ClipboardChannel.default ≠ t →
      (paste rt true (ShouldPaste.modified t)).effects.written
        ≠ [rt ClipboardChannel.default]) := by
  constructor
  · simp [paste, pasteRaw, shouldPasteIsFalsy]
  · intro hne
    simp [paste, pasteRaw, shouldPasteIsFalsy]
    exact fun hc => hne hc.symm

/-- Witness for C6: clipboard holds sampleText, the guard substitutes
sampleModified, and the written text is sampleModified, not sampleText. -/
theorem paste_guard_modified_writes_modified_witness :
    (samplePasteRead ClipboardChannel.default ≠ sampleModified)
    ∧ (paste samplePasteRead true (ShouldPaste.modified sampleModified)).effects
      = { focused := true, willPaste := [sampleModified]
          written := [sampleModified], didPaste := [sampleModified] }
    ∧ (paste samplePasteRead true
        (ShouldPaste.modified sampleModified)).effects.written
      ≠ [samplePasteRead ClipboardChannel.default] :=
  ⟨by decide,
   (paste_guard_modified_writes_modified samplePasteRead sampleModified).1,
   (paste_guard_modified_writes_modified samplePasteRead sampleModified).2
     (by decide)⟩

/-- C7 counterexample: a concrete pasteSelection call started from the unset
lock state terminates with the override lock still holding false — the lock
is not released when the call ends, contradicting the claim that it is held
only for the duration of the call. -/
theorem pasteSelection_lock_not_released_cex :
    (pasteSelection none samplePasteRead true (ShouldPaste.bool true)).1
      = some false
    ∧ some false ≠ (none : Option Bool) :=
  ⟨rfl, by decide⟩

/-- C7 amended: a pasteFromSelectionClipboard() call made while the lock is
unset reads the selection clipboard channel (not the default one) and
acquires the override lock with false at the start, and the lock holds false
for the full duration of the call; but the revocation handle is discarded, so
the lock is still false when the call returns — it is never released. A call
made while the lock is held throws the double-acquire error before reading
the clipboard and leaves the held value in place. -/
theorem pasteSelection_channel_and_lock (rt : ClipboardChannel → String)
    (xa : Bool) (g : ShouldPaste) :
    ((pasteSelection none rt xa g).1 = some false
    ∧ (pasteSelection none rt xa g).2 = Except.ok
        { channelRead := ClipboardChannel.selection
          lockDuringPaste := some false
          effects := pasteRaw xa (rt ClipboardChannel.selection) g })
    ∧ (∀ b : Bool, (pasteSelection (some b) rt xa g).1 = some b
      ∧ (pasteSelection (some b) rt xa g).2
        = Except.error JsError.doubleAcquire) :=
  ⟨⟨rfl, rfl⟩, fun _ => ⟨rfl, rfl⟩⟩

/-- C8 counterexample: from the initial state, the find-widget focus tracker
handler sets the lock to false, but after the blur handler the lock still
holds false instead of returning to unset, and a subsequent distinct
selection with copy-on-selection enabled still performs no automatic copy. -/
theorem findWidget_blur_keeps_lock_cex :
    (onFocusTrackerFocus true initialSystemState).1.overrideCopySelection
      = some false
    ∧ (onFocusTrackerBlur true
        (onFocusTrackerFocus true initialSystemState).1).1.overrideCopySelection
      = some false
    ∧ some false ≠ (none : Option Bool)
    ∧ onDidChangeSelection true
        (onFocusTrackerBlur true
          (onFocusTrackerFocus true initialSystemState).1).1.overrideCopySelection
        true sampleText none
        { previousSelection := none, previousSelectionPosition := none }
      = ({ previousSelection := none, previousSelectionPosition := none },
         false) := by
  refine ⟨rfl, rfl, by decide, by decide⟩

/-- C8 amended: when the find widget gains focus (the focus tracker handler)
while the override lock is unset and the clipboard contribution is present,
the lock becomes false; when the widget subsequently loses focus the lock is
not released (the disposal in the blur handler is commented out in the
source) and keeps the value false, so a selection-changed event still never
copies; the lock returns to unset only when the find input next changes with
the terminal attached, after which a new distinct selection does trigger an
automatic copy again. -/
theorem findWidget_focus_blur_lock (s : SystemState)
    (h : s.overrideCopySelection = none) :
    (onFocusTrackerFocus true s).1.overrideCopySelection = some false
    ∧ (onFocusTrackerFocus true s).2 = Except.ok ()
    ∧ (onFocusTrackerBlur true
        (onFocusTrackerFocus true s).1).1.overrideCopySelection = some false
    ∧ (∀ (cfg hs : Bool) (sel : String) (pos : Option BufferRange)
        (snap : SnapshotState),
        onDidChangeSelection cfg
          (onFocusTrackerBlur true
            (onFocusTrackerFocus true s).1).1.overrideCopySelection
          hs sel pos snap = (snap, false))
    ∧ (onInputChanged true (onFocusTrackerBlur true
        (onFocusTrackerFocus true s).1).1).state.overrideCopySelection = none
    ∧ (∀ (sel : String) (pos : Option BufferRange) (snap : SnapshotState),
        snap.previousSelection ≠ some sel →
        onDidChangeSelection true
          (onInputChanged true (onFocusTrackerBlur true
            (onFocusTrackerFocus true s).1).1).state.overrideCopySelection
          true sel pos snap
        = ({ previousSelection := some sel
             previousSelectionPosition := pos }, true)) := by
  obtain ⟨ov, wh, fw⟩ := s
  have h' : ov = none := h
  subst h'
  refine ⟨rfl, rfl, rfl, ?_, rfl, ?_⟩
  · intro cfg hs sel pos snap
    cases cfg <;> simp [onFocusTrackerFocus, onFocusTrackerBlur,
      overrideCopyOnSelection, onDidChangeSelection]
  · intro sel pos snap hne
    simp [onFocusTrackerFocus, onFocusTrackerBlur, onInputChanged,
      disposeWidgetHandle, disposeHandle, revokeOverride,
      overrideCopyOnSelection, onDidChangeSelection, hne]

/-- Witness for C8 at the initial system state. -/
theorem findWidget_focus_blur_lock_witness :
    (initialSystemState.overrideCopySelection = none)
    ∧ (onFocusTrackerFocus true initialSystemState).1.overrideCopySelection
      = some false
    ∧ (onInputChanged true (onFocusTrackerBlur true
        (onFocusTrackerFocus true
          initialSystemState).1).1).state.overrideCopySelection = none :=
  ⟨rfl, (findWidget_focus_blur_lock initialSystemState rfl).1,
   (findWidget_focus_blur_lock initialSystemState rfl).2.2.2.2.1⟩

/-- C9: a failed overrideCopyOnSelection call — one made while the lock is
already held — leaves the lock state unchanged: the throw happens before the
assignment in the source, so the previously held value (true or false) is
preserved and not overwritten by the failed acquisition. -/
theorem overrideCopyOnSelection_failure_preserves_state (v b : Bool) :
    (overrideCopyOnSelection v (some b)).1 = some b
    ∧ (overrideCopyOnSelection v (some b)).2
      = Except.error JsError.doubleAcquire :=
  ⟨rfl, rfl⟩

/-- C10 counterexample: pasteSelection leaks the lock (its handle is
discarded) while the find widget holds no handle; a subsequent find-input
change with the terminal attached still issues the incremental search but
leaves the override lock holding false, refuting the claim that after any
keystroke the override lock is unset. -/
theorem inputChanged_lock_still_held_cex :
    (pasteSelection none samplePasteRead true (ShouldPaste.bool true)).1
      = some false
    ∧ (onInputChanged true
        { overrideCopySelection := some false, widgetHandle := none
          findWidgetFocused := true }).state.overrideCopySelection
      = some false
    ∧ (onInputChanged true
        { overrideCopySelection := some false, widgetHandle := none
          findWidgetFocused := true }).issuedIncrementalSearch = true
    ∧ some false ≠ (none : Option Bool) :=
  ⟨rfl, rfl, rfl, by decide⟩

/-- C10 amended: on a find-input change with the terminal attached, the
widget disposes its held override-lock handle before issuing the incremental
search; when the widget holds a not-yet-disposed handle, the override lock is
unset after the keystroke, even while the find-input focus flags are
untouched; when the widget holds no handle, the lock is left unchanged. -/
theorem inputChanged_disposes_widget_handle (s : SystemState)
    (h : s.widgetHandle = some { disposed := false }) :
    (onInputChanged true s).state.overrideCopySelection = none
    ∧ (onInputChanged true s).issuedIncrementalSearch = true
    ∧ (onInputChanged true s).state.findWidgetFocused = s.findWidgetFocused
    ∧ (∀ s2 : SystemState, s2.widgetHandle = none →
        (onInputChanged true s2).state.overrideCopySelection
          = s2.overrideCopySelection) := by
  obtain ⟨ov, wh, fw⟩ := s
  have h' : wh = some { disposed := false } := h
  subst h'
  refine ⟨rfl, rfl, rfl, ?_⟩
  intro s2 h2
  obtain ⟨ov2, wh2, fw2⟩ := s2
  have h2' : wh2 = none := h2
  subst h2'
  rfl

/-- Witness for C10 with the widget holding a fresh handle over a lock
holding false. -/
theorem inputChanged_disposes_widget_handle_witness :
    (({ overrideCopySelection := some false
        widgetHandle := some { disposed := false }
        findWidgetFocused := true } : SystemState).widgetHandle
      = some { disposed := false })
    ∧ (onInputChanged true
        { overrideCopySelection := some false
          widgetHandle := some { disposed := false }
          findWidgetFocused := true }).state.overrideCopySelection = none :=
  ⟨rfl,
   (inputChanged_disposes_widget_handle
      { overrideCopySelection := some false
        widgetHandle := some { disposed := false }
        findWidgetFocused := true } rfl).1⟩

end TerminalClipboardModel
